import Mathlib

/- Shallow embedding of the ai-blog post-indexing pipeline:
   front-matter model, Post model builder, post collection (postsAction),
   tag extraction (tagsAction), the newest-N view (getNewPosts), the
   pagination planner and the tag-page planner (paths). -/

/-- Author-supplied prev/next navigation value in front matter: either the
explicit "disabled" literal or a text/link pair. -/
inductive FmNav where
  | disabled : FmNav
  | pair (text link : String) : FmNav
deriving Repr, DecidableEq

/-- Parsed front-matter mapping of one Markdown file: the recognized keys,
each optional at this stage (validation is deferred to the model builder). -/
structure FrontMatter where
  date : Option String
  title : Option String
  description : Option String
  tags : Option (List String)
  prev : Option FmNav
  next : Option FmNav
deriving Repr, DecidableEq

/-- One published article. `date` is the normalized calendar-date key
(monotone in chronological order, standing for the parsed timestamp). -/
structure Post where
  path : String
  date : Nat
  title : String
  description : String
  tags : List String
  prev : Option FmNav
  next : Option FmNav
deriving Repr, DecidableEq

/-- File-local errors of the pipeline, as named in the error taxonomy. -/
inductive FileError where
  | MalformedFrontMatter (path : String) : FileError
  | MissingRequiredField (field path : String) : FileError
  | InvalidDateFormat (path : String) : FileError
deriving Repr, DecidableEq

/-- Modelled from the spec: one Markdown file of the content tree, as the
recursive directory walk (getAllMarkdownFiles, not under src/) hands it to
the parser: its path, and its front-matter block (`none` when the file has
no parsable metadata block). -/
structure MdFile where
  path : String
  fm : Option FrontMatter
deriving Repr, DecidableEq

/-- Remove leading and trailing whitespace characters from a char list. -/
def trimChars (l : List Char) : List Char :=
  ((l.dropWhile Char.isWhitespace).reverse.dropWhile Char.isWhitespace).reverse

/-- Trim surrounding whitespace of a string (char-level model of trim). -/
def trimStr (s : String) : String :=
  String.mk (trimChars s.data)

/-- Lexicographic code-point order on char lists (the order of the default
JavaScript string sort, restricted to the ASCII tags used here). -/
def lexLe : List Char → List Char → Bool
  | [], _ => true
  | _ :: _, [] => false
  | a :: as, b :: bs =>
    if a.toNat < b.toNat then true
    else if b.toNat < a.toNat then false
    else lexLe as bs

/-- Lexicographic order on strings, via their char lists. -/
def strLe (a b : String) : Bool :=
  lexLe a.data b.data

/-- Propositional form of the tag order used by the tag extractor. -/
def tagLe (a b : String) : Prop :=
  strLe a b = true

instance : DecidableRel tagLe :=
  fun a b => inferInstanceAs (Decidable (strLe a b = true))

/-- Gregorian leap-year test, used to validate day-of-month in dates. -/
def isLeapYear (y : Nat) : Bool :=
  (y % 4 == 0 && y % 100 != 0) || y % 400 == 0

/-- Number of days of month `m` in year `y`. -/
def daysInMonth (y m : Nat) : Nat :=
  if m == 2 then (if isLeapYear y then 29 else 28)
  else if m == 4 || m == 6 || m == 9 || m == 11 then 30
  else 31

/-- Split a char list on a separator character. -/
def splitOnChar (c : Char) : List Char → List (List Char)
  | [] => [[]]
  | x :: xs =>
    match splitOnChar c xs with
    | [] => [[]]
    | g :: gs => if x = c then [] :: g :: gs else (x :: g) :: gs

/-- Decimal value of a digit char list. -/
def digitsToNat (l : List Char) : Nat :=
  l.foldl (fun acc c => acc * 10 + (c.toNat - 48)) 0

/-- True when the char list is nonempty and all decimal digits. -/
def isDigits (l : List Char) : Bool :=
  !l.isEmpty && l.all Char.isDigit

/-- Modelled from the spec: date normalization of the Post Model Builder
(not under src/). Accepts an ISO-8601 date or date-time string
(`YYYY-MM-DD`, optionally followed by a `T...` time part) and yields a
normalized calendar-date key; yields `none` when unparsable. -/
def parseDateField (s : String) : Option Nat :=
  let core := s.data.takeWhile (fun c => c ≠ 'T')
  match splitOnChar ('-') core with
  | [y, m, d] =>
    let yn := digitsToNat y
    let mn := digitsToNat m
    let dn := digitsToNat d
    if isDigits y && isDigits m && isDigits d &&
       (y.length == 4) && (m.length == 2) && (d.length == 2) &&
       decide (1 ≤ mn) && decide (mn ≤ 12) &&
       decide (1 ≤ dn) && decide (dn ≤ daysInMonth yn mn)
    then some (yn * 10000 + mn * 100 + dn)
    else none
  | _ => none

/-- Modelled from the spec: the Post Model Builder (not under src/). Given
the parsed front-matter mapping and the originating file path, requires
`date` and `title` (failing with MissingRequiredField naming field and
path), normalizes the date (InvalidDateFormat when unparsable), defaults
`description` to the empty string, trims each tag and collapses duplicate
tags to one, and passes prev/next through as-authored. -/
def buildPost (fm : FrontMatter) (path : String) : Except FileError Post :=
  match fm.date with
  | none => Except.error (FileError.MissingRequiredField ("date") path)
  | some ds =>
    match fm.title with
    | none => Except.error (FileError.MissingRequiredField ("title") path)
    | some t =>
      match parseDateField ds with
      | none => Except.error (FileError.InvalidDateFormat path)
      | some dv =>
        Except.ok
          { path := path
            date := dv
            title := t
            description := fm.description.getD ""
            tags := ((fm.tags.getD []).map trimStr).dedup
            prev := fm.prev
            next := fm.next }

/-- Modelled from the spec: parseFileToPost (not under src/) — parse one
Markdown file and build its Post; a file without a parsable metadata
block fails with MalformedFrontMatter. -/
def parseFileToPost (f : MdFile) : Except FileError Post :=
  match f.fm with
  | none => Except.error (FileError.MalformedFrontMatter f.path)
  | some fm => buildPost fm f.path

/-- Mapping parseFileToPost over the enumerated files with exception
semantics: the first file-level error aborts the whole traversal
(this embeds `getAllMarkdownFiles().map(parseFileToPost)` inside the try
block of postsAction). -/
def collectPosts : List MdFile → Except FileError (List Post)
  | [] => Except.ok []
  | f :: fs =>
    match parseFileToPost f with
    | Except.error e => Except.error e
    | Except.ok p =>
      match collectPosts fs with
      | Except.error e => Except.error e
      | Except.ok ps => Except.ok (p :: ps)

/-- Embeds postsAction of src/.vitepress/data/action/posts-action.ts: maps
parseFileToPost over all Markdown files; any thrown error is caught and
replaced by `new Error("Failed to retrieve article")` (the caught error is
only logged). -/
def postsAction (tree : List MdFile) : Except String (List Post) :=
  match collectPosts tree with
  | Except.ok ps => Except.ok ps
  | Except.error _ => Except.error ("Failed to retrieve article")

/-- Modelled from the spec: the Tag Extractor tagsAction (not under src/,
only its caller src/.vitepress/config.mts line 11) — the sorted,
duplicate-free set of all tags used by any post. -/
def tagsAction (posts : List Post) : List String :=
  List.insertionSort tagLe (posts.flatMap Post.tags).dedup

/-- Descending-by-date stable sort with the comparator of getNewPosts
(`(a, b) => new Date(b.date).getTime() - new Date(a.date).getTime()`). -/
def postDateGe (a b : Post) : Prop :=
  b.date ≤ a.date

instance : DecidableRel postDateGe :=
  fun a b => Nat.decLe b.date a.date

/-- Stable sort of a Post list in descending date order. -/
def sortByDateDesc (posts : List Post) : List Post :=
  List.insertionSort postDateGe posts

/-- Embeds getNewPosts (theme data helper shipped inside the repo): the
function body is `const posts = __POSTS__; posts.sort(cmp); return
posts.slice(0, num)`. `Array.prototype.sort` sorts the shared `__POSTS__`
array in place, so the call is modelled as a state transformer on that
array: the first component is the returned slice, the second is the state
of the shared `__POSTS__` array after the call. -/
def getNewPosts (num : Nat) (globalPosts : List Post) : List Post × List Post :=
  let posts := sortByDateDesc globalPosts
  (posts.take num, posts)

/-- Modelled from the spec: the Pagination Planner (not under src/) —
given total post count and a fixed page size, the ordered sequence of
page numbers `1..ceil(count/pageSize)`, with at least page 1 even for an
empty collection. -/
def paginationPlan (count pageSize : Nat) : List Nat :=
  List.range' 1 (max 1 ((count + pageSize - 1) / pageSize))

/-- Route parameter record of one tag page. -/
structure TagParams where
  tag : String
deriving Repr, DecidableEq

/-- One static-path plan entry of the tag-page planner. -/
structure TagPathEntry where
  params : TagParams
deriving Repr, DecidableEq

/-- Embeds paths of src/tags/[tag].paths.ts: one entry per element of the
global tags array, carrying the tag as its route parameter. -/
def paths (tags : List String) : List TagPathEntry :=
  tags.map (fun tag => { params := { tag := tag } })

/- ===== Helper lemmas ===== -/

theorem lexLe_total : ∀ a b : List Char, lexLe a b = true ∨ lexLe b a = true
  | [], _ => Or.inl rfl
  | _ :: _, [] => Or.inr rfl
  | a :: as, b :: bs => by
    by_cases h1 : a.toNat < b.toNat
    · left
      simp [lexLe, h1]
    · by_cases h2 : b.toNat < a.toNat
      · right
        simp [lexLe, h2]
      · rcases lexLe_total as bs with h | h
        · left
          simp [lexLe, h1, h2, h]
        · right
          simp [lexLe, h1, h2, h]

theorem lexLe_trans : ∀ a b c : List Char,
    lexLe a b = true → lexLe b c = true → lexLe a c = true
  | [], _, _, _, _ => rfl
  | _ :: _, [], _, h, _ => by simp [lexLe] at h
  | _ :: _, _ :: _, [], _, h => by simp [lexLe] at h
  | a :: as, b :: bs, c :: cs, h1, h2 => by
    simp only [lexLe] at h1 h2 ⊢
    split_ifs at h1 h2 ⊢ <;>
      first
        | rfl
        | (exact lexLe_trans as bs cs h1 h2)
        | (exfalso; omega)

instance : IsTotal String tagLe :=
  ⟨fun a b => lexLe_total a.data b.data⟩

instance : IsTrans String tagLe :=
  ⟨fun a b c => lexLe_trans a.data b.data c.data⟩

instance : IsTotal Post postDateGe :=
  ⟨fun a b => Nat.le_total b.date a.date⟩

instance : IsTrans Post postDateGe :=
  ⟨fun _ _ _ h1 h2 => Nat.le_trans h2 h1⟩

theorem tagsAction_nodup (ps : List Post) : (tagsAction ps).Nodup :=
  ((List.perm_insertionSort tagLe _).nodup_iff).mpr (List.nodup_dedup _)

theorem tagsAction_sorted (ps : List Post) : List.Sorted tagLe (tagsAction ps) :=
  List.sorted_insertionSort tagLe _

theorem tagsAction_mem (ps : List Post) (t : String) :
    t ∈ tagsAction ps ↔ ∃ p ∈ ps, t ∈ p.tags := by
  unfold tagsAction
  rw [(List.perm_insertionSort tagLe _).mem_iff, List.mem_dedup, List.mem_flatMap]

theorem tagEntry_injective :
    Function.Injective (fun tag => ({ params := { tag := tag } } : TagPathEntry)) := by
  intro a b h
  simpa using congrArg (fun e => e.params.tag) h

theorem collectPosts_error_of_mem {tree : List MdFile} {f : MdFile} {e : FileError}
    (hf : f ∈ tree) (he : parseFileToPost f = Except.error e) :
    ∃ e2, collectPosts tree = Except.error e2 := by
  induction tree with
  | nil => cases hf
  | cons x xs ih =>
    rcases List.mem_cons.mp hf with hx | hmem
    · subst hx
      exact ⟨e, by simp [collectPosts, he]⟩
    · match hx : parseFileToPost x with
      | Except.error e3 => exact ⟨e3, by simp [collectPosts, hx]⟩
      | Except.ok p =>
        obtain ⟨e2, h2⟩ := ih hmem
        exact ⟨e2, by simp [collectPosts, hx, h2]⟩

/- ===== Claim theorems ===== -/

/-- C2: for every number n and Post collection, getNewPosts returns the
first n posts of the collection sorted in descending order of date (the
post with the latest date first): it sorts descending by date and then
slices, the sorted list being a permutation of the collection that is
pairwise descending by date. -/
theorem getNewPosts_returns_first_n_sorted_desc (n : Nat) (ps : List Post) :
    (getNewPosts n ps).1 = (sortByDateDesc ps).take n ∧
    (sortByDateDesc ps).Perm ps ∧
    List.Sorted postDateGe (sortByDateDesc ps) :=
  ⟨rfl, List.perm_insertionSort postDateGe ps, List.sorted_insertionSort postDateGe ps⟩

/-- C3 (code bug): getNewPosts does not leave the shared posts collection
in its original order — `Array.prototype.sort` sorts the injected
`__POSTS__` array in place, so after getNewPosts(1) on a two-post
collection stored in ascending date order the shared state is reordered. -/
theorem getNewPosts_mutates_shared_posts :
    (getNewPosts 1
      [⟨"posts/2025/07/07.md", 20250707, "A", "", ["ts"], none, none⟩,
       ⟨"posts/2025/07/08.md", 20250708, "B", "", ["ts", "generics"], none, none⟩]).2
    ≠ [⟨"posts/2025/07/07.md", 20250707, "A", "", ["ts"], none, none⟩,
       ⟨"posts/2025/07/08.md", 20250708, "B", "", ["ts", "generics"], none, none⟩] := by
  decide

/-- C4: for every total count c and fixed page size s > 0, the pagination
planner returns the ordered page numbers 1..ceil(c/s), except that c = 0
still yields exactly [1]; for c = 25, s = 10 it returns [1, 2, 3]. -/
theorem paginationPlan_page_numbers (c s : Nat) (h : 0 < s) :
    (c = 0 → paginationPlan c s = [1]) ∧
    (0 < c → paginationPlan c s = List.range' 1 ((c + s - 1) / s)) ∧
    paginationPlan 25 10 = [1, 2, 3] := by
  refine ⟨?_, ?_, by decide⟩
  · rintro rfl
    unfold paginationPlan
    have h0 : (0 + s - 1) / s = 0 := Nat.div_eq_of_lt (by omega)
    rw [h0]
    decide
  · intro hc
    unfold paginationPlan
    have h1 : 1 ≤ (c + s - 1) / s := (Nat.one_le_div_iff h).mpr (by omega)
    rw [Nat.max_eq_right h1]

/-- C4 witness: the planner at the concrete inputs of the claim. -/
theorem paginationPlan_page_numbers_witness :
    paginationPlan 0 10 = [1] ∧ paginationPlan 25 10 = [1, 2, 3] :=
  ⟨(paginationPlan_page_numbers 0 10 (by decide)).1 rfl,
   (paginationPlan_page_numbers 25 10 (by decide)).2.2⟩

/-- C5: the tag extractor returns the sorted, duplicate-free set of all
tags used by any post; a post with zero tags contributes nothing (the
membership equivalence), an empty collection yields the empty tag set,
and posts tagged [go, rust] and [rust] yield exactly [go, rust]. -/
theorem tagsAction_sorted_dedup_set (ps : List Post) :
    (tagsAction ps).Nodup ∧
    List.Sorted tagLe (tagsAction ps) ∧
    (∀ t, t ∈ tagsAction ps ↔ ∃ p ∈ ps, t ∈ p.tags) ∧
    tagsAction [] = [] ∧
    tagsAction [⟨"a.md", 20250707, "A", "", ["go", "rust"], none, none⟩,
                ⟨"b.md", 20250708, "B", "", ["rust"], none, none⟩] = ["go", "rust"] :=
  ⟨tagsAction_nodup ps, tagsAction_sorted ps, tagsAction_mem ps, rfl, by decide⟩

/-- C6: applied to the tag set produced by the tag extractor (the global
tags array of the config), the tag-page planner returns exactly one plan
entry per distinct tag, each carrying that tag as its route parameter
(and nothing else — no per-tag pagination entries). -/
theorem paths_one_entry_per_distinct_tag (ps : List Post) :
    ((paths (tagsAction ps)).map (fun e => e.params.tag)) = tagsAction ps ∧
    (paths (tagsAction ps)).Nodup ∧
    (paths (tagsAction ps)).length = (tagsAction ps).length := by
  refine ⟨?_, ?_, by simp [paths]⟩
  · simp only [paths, List.map_map]
    exact List.map_id _
  · exact List.Nodup.map tagEntry_injective (tagsAction_nodup ps)

/-- C10: for every global tags array, paths returns a list of the same
length whose i-th entry carries the i-th tag as its route parameter, in
order, with no deduplication of its own: the output is duplicate-free
exactly when the input is. -/
theorem paths_pointwise_no_dedup (ts : List String) :
    (paths ts).length = ts.length ∧
    (∀ i (hi : i < ts.length) (hp : i < (paths ts).length),
        ((paths ts).get ⟨i, hp⟩).params.tag = ts.get ⟨i, hi⟩) ∧
    ((paths ts).Nodup ↔ ts.Nodup) := by
  refine ⟨by simp [paths], ?_, ?_⟩
  · intro i hi hp
    simp [paths]
  · constructor
    · intro h
      exact h.of_map _
    · intro h
      exact List.Nodup.map tagEntry_injective h

/-- C10 witness: paths at a concrete two-tag array. -/
theorem paths_pointwise_no_dedup_witness :
    (paths ["go", "rust"]).length = 2 ∧
    ((paths ["go", "rust"]).get ⟨1, by decide⟩).params.tag = "rust" :=
  ⟨(paths_pointwise_no_dedup ["go", "rust"]).1,
   (paths_pointwise_no_dedup ["go", "rust"]).2.1 1 (by decide) (by decide)⟩

/-- C1 counterexample: the collection build does fail on a malformed file,
but the resulting error is the fixed message of postsAction and is
identical for two trees whose only malformed file has a different path —
so the error neither wraps the file-level error nor includes the
offending file path. -/
theorem postsAction_error_independent_of_path :
    postsAction [⟨"posts/2025/07/07.md", (none : Option FrontMatter)⟩]
      = Except.error ("Failed to retrieve article") ∧
    postsAction [⟨"posts/2025/07/99.md", (none : Option FrontMatter)⟩]
      = Except.error ("Failed to retrieve article") ∧
    postsAction [⟨"posts/2025/07/07.md", (none : Option FrontMatter)⟩]
      = postsAction [⟨"posts/2025/07/99.md", (none : Option FrontMatter)⟩] :=
  ⟨rfl, rfl, rfl⟩

/-- C1 (amended): for every content tree containing at least one file
whose parsing or post-building fails, the whole collection build fails —
no partial Post collection is returned — but with the single generic
error message of postsAction, which does not wrap the file-level error
and does not include the offending file path. -/
theorem postsAction_fail_fast (tree : List MdFile) (f : MdFile) (e : FileError)
    (hf : f ∈ tree) (he : parseFileToPost f = Except.error e) :
    postsAction tree = Except.error ("Failed to retrieve article") ∧
    ∀ ps, postsAction tree ≠ Except.ok ps := by
  obtain ⟨e2, h2⟩ := collectPosts_error_of_mem hf he
  refine ⟨by simp [postsAction, h2], ?_⟩
  intro ps hps
  simp [postsAction, h2] at hps

/-- C1 witness: a one-file tree whose file has no parsable front matter. -/
theorem postsAction_fail_fast_witness :
    postsAction [⟨"posts/2025/07/07.md", (none : Option FrontMatter)⟩]
      = Except.error ("Failed to retrieve article") :=
  (postsAction_fail_fast [⟨"posts/2025/07/07.md", none⟩]
    ⟨"posts/2025/07/07.md", none⟩
    (FileError.MalformedFrontMatter ("posts/2025/07/07.md"))
    (List.mem_singleton.mpr rfl) rfl).1

/-- C7: for every parsed front-matter mapping accepted by the model
builder, the produced Post has duplicate-free tags, each of which is the
trim of a tag authored in the front matter; an absent tags field yields
the empty collection. -/
theorem buildPost_tags_trimmed_dedup (fm : FrontMatter) (path : String) (p : Post)
    (h : buildPost fm path = Except.ok p) :
    p.tags.Nodup ∧
    (fm.tags = none → p.tags = []) ∧
    (∀ t ∈ p.tags, ∃ raw ∈ fm.tags.getD [], trimStr raw = t) := by
  unfold buildPost at h
  split at h
  · simp at h
  · split at h
    · simp at h
    · split at h
      · simp at h
      · injection h with h
        subst h
        refine ⟨List.nodup_dedup _, ?_, ?_⟩
        · intro ht
          simp [ht]
        · intro t htmem
          obtain ⟨raw, hraw, hraweq⟩ := List.mem_map.mp (List.mem_dedup.mp htmem)
          exact ⟨raw, hraw, hraweq⟩

/-- C7 witness: a front matter listing the duplicate tags with differing
whitespace collapses them to one trimmed tag. -/
theorem buildPost_tags_trimmed_dedup_witness :
    buildPost ⟨some "2025-07-07", some "A", none, some ["ts", " ts "], none, none⟩
        ("posts/2025/07/07.md")
      = Except.ok ⟨"posts/2025/07/07.md", 20250707, "A", "", ["ts"], none, none⟩ ∧
    (⟨"posts/2025/07/07.md", 20250707, "A", "", ["ts"], none, none⟩ : Post).tags.Nodup :=
  ⟨rfl,
   (buildPost_tags_trimmed_dedup
     ⟨some "2025-07-07", some "A", none, some ["ts", " ts "], none, none⟩
     ("posts/2025/07/07.md")
     ⟨"posts/2025/07/07.md", 20250707, "A", "", ["ts"], none, none⟩ rfl).1⟩

/-- C8: a front-matter mapping missing the date field fails with
MissingRequiredField naming date and the file path, and one with date
present but the title field missing fails with MissingRequiredField
naming title and the file path. -/
theorem buildPost_missing_required_field (fm : FrontMatter) (path : String) :
    (fm.date = none →
      buildPost fm path
        = Except.error (FileError.MissingRequiredField ("date") path)) ∧
    (∀ ds, fm.date = some ds → fm.title = none →
      buildPost fm path
        = Except.error (FileError.MissingRequiredField ("title") path)) := by
  constructor
  · intro h
    unfold buildPost
    rw [h]
  · intro ds hd ht
    unfold buildPost
    rw [hd, ht]

/-- C8 witness: concrete front matters missing date, and missing title. -/
theorem buildPost_missing_required_field_witness :
    buildPost ⟨none, some "A", none, none, none, none⟩ ("p.md")
      = Except.error (FileError.MissingRequiredField ("date") ("p.md")) ∧
    buildPost ⟨some "2025-07-07", none, none, none, none, none⟩ ("q.md")
      = Except.error (FileError.MissingRequiredField ("title") ("q.md")) :=
  ⟨(buildPost_missing_required_field ⟨none, some "A", none, none, none, none⟩
      ("p.md")).1 rfl,
   (buildPost_missing_required_field ⟨some "2025-07-07", none, none, none, none, none⟩
      ("q.md")).2 ("2025-07-07") rfl rfl⟩

/-- C9: the collection build is deterministic in its input tree — two
builds of the same unchanged tree that return collections return the
same collection, hence collections equal as unordered sets (multisets). -/
theorem postsAction_idempotent (tree : List MdFile) (ps1 ps2 : List Post)
    (h1 : postsAction tree = Except.ok ps1) (h2 : postsAction tree = Except.ok ps2) :
    (ps1 : Multiset Post) = (ps2 : Multiset Post) := by
  rw [h1] at h2
  injection h2 with h
  rw [h]

/-- C9 witness: building a concrete one-file tree twice. -/
theorem postsAction_idempotent_witness :
    postsAction [⟨"posts/2025/07/07.md",
        some ⟨some "2025-07-07", some "A", none, some ["ts"], none, none⟩⟩]
      = Except.ok [⟨"posts/2025/07/07.md", 20250707, "A", "", ["ts"], none, none⟩] ∧
    (([⟨"posts/2025/07/07.md", 20250707, "A", "", ["ts"], none, none⟩] : List Post) : Multiset Post)
      = (([⟨"posts/2025/07/07.md", 20250707, "A", "", ["ts"], none, none⟩] : List Post) : Multiset Post) :=
  ⟨rfl,
   postsAction_idempotent
     [⟨"posts/2025/07/07.md",
        some ⟨some "2025-07-07", some "A", none, some ["ts"], none, none⟩⟩]
     [⟨"posts/2025/07/07.md", 20250707, "A", "", ["ts"], none, none⟩]
     [⟨"posts/2025/07/07.md", 20250707, "A", "", ["ts"], none, none⟩] rfl rfl⟩
